import Mathlib

/-!
# PantryChef recommendation pipeline: a shallow embedding

This file embeds the core recipe scoring/filtering/safety pipeline of the
PantryChef backend (`Logic.py`, class `PantryChefEngine`, together with the
post-processing part of `app_orchestrator.py`, `run_pantry_chef`) into Lean,
and proves the specification claims about it.

Conventions of the embedding:
* Python `float` arithmetic is modelled by `ℚ` (all constants involved are
  exactly representable decimals, so the idealisation is faithful for the
  small concrete values handled here); `round(x, 1)` is modelled by
  round-half-to-even at one decimal, matching Python's banker's rounding.
* Python dictionaries carrying a fixed schema are modelled by structures.
  A key that some code path omits from a returned dictionary is modelled by
  an `Option` field (`none` = key absent), and readers apply the same
  defaults the Python readers use (`dict.get(key, default)`).
* Python `str` is `String`; `sub in s` is the substring test `pyIn`;
  `s.lower()` is `pyLower`; `" ".join(l)` is `String.intercalate " "`.
* External collaborators (Spoonacular fetch, Gemini LLM) are out of scope,
  exactly as in the specification: the orchestrator model starts from the
  raw recipe list the fetch stage produced, and the set of titles the LLM
  pitch marked as REJECTED is an arbitrary input parameter.
-/

namespace PantryChef

/-! ## String helpers (Python semantics) -/

/-- Python `s.lower()` (ASCII lowering, which is all the keyword lists use;
implemented over the character list so that it reduces in the kernel). -/
def pyLower (s : String) : String := ⟨s.data.map Char.toLower⟩

/-- `listStartsWith pat l` : `pat` is a prefix of the character list `l`. -/
def listStartsWith : List Char → List Char → Bool
  | [], _ => true
  | _ :: _, [] => false
  | a :: as, b :: bs => a == b && listStartsWith as bs

/-- `listHasSub pat l` : `pat` occurs contiguously inside `l`. -/
def listHasSub (pat : List Char) : List Char → Bool
  | [] => pat.isEmpty
  | c :: cs => listStartsWith pat (c :: cs) || listHasSub pat cs

/-- Python `sub in s` for strings (contiguous substring test). -/
def pyIn (sub s : String) : Bool := listHasSub sub.data s.data

/-- Python `a or b` for strings: first operand if non-empty, else the second. -/
def pyOr (a b : String) : String := if a = "" then b else a

/-- Fuel-driven worker for `pyReplace`; the fuel (initially the length of
the text) makes the recursion structural. -/
def replaceFuel (pat rep : List Char) : Nat → List Char → List Char
  | 0, l => l
  | _ + 1, [] => []
  | n + 1, c :: cs =>
    if listStartsWith pat (c :: cs) && !pat.isEmpty then
      rep ++ replaceFuel pat rep n (List.drop (pat.length - 1) cs)
    else c :: replaceFuel pat rep n cs

/-- Python `s.replace(pat, rep)` for a non-empty pattern: replaces all
non-overlapping occurrences left to right. -/
def pyReplace (s pat rep : String) : String :=
  ⟨replaceFuel pat.data rep.data s.data.length s.data⟩

/-! ## Rounding (Python `round`, banker's rounding) -/

/-- Round-half-to-even on `ℚ`, the semantics of Python's `round(x)`. -/
def roundHalfEven (x : ℚ) : ℤ :=
  if Int.fract x < 1/2 then ⌊x⌋
  else if 1/2 < Int.fract x then ⌊x⌋ + 1
  else if Even ⌊x⌋ then ⌊x⌋ else ⌊x⌋ + 1

/-- Python `round(x, 1)`. -/
def pyRound1 (x : ℚ) : ℚ := (roundHalfEven (10 * x) : ℚ) / 10

/-- Python `round(x, 2)`. -/
def pyRound2 (x : ℚ) : ℚ := (roundHalfEven (100 * x) : ℚ) / 100

/-- Formatting of a non-negative rational with exactly one decimal digit:
Python's `f"{x:.1f}"`.  For the values this development prints (percentages
and score components that are exact tenths) it coincides with Python's
`str(float)` as well. -/
def pyFmt1 (x : ℚ) : String :=
  let n := roundHalfEven (10 * x)
  toString (n / 10) ++ "." ++ toString (n % 10)

theorem floor_le_roundHalfEven (x : ℚ) : ⌊x⌋ ≤ roundHalfEven x := by
  unfold roundHalfEven
  split
  · exact le_refl _
  · split
    · omega
    · split <;> omega

theorem roundHalfEven_le_ceil (x : ℚ) : roundHalfEven x ≤ ⌈x⌉ := by
  have hfc : ⌊x⌋ ≤ ⌈x⌉ := Int.floor_le_ceil x
  have key : Int.fract x ≠ 0 → ⌊x⌋ + 1 ≤ ⌈x⌉ := by
    intro hf
    have hx : (⌊x⌋ : ℚ) < x := by
      have h0 : 0 ≤ Int.fract x := Int.fract_nonneg x
      have h1 : (⌊x⌋ : ℚ) + Int.fract x = x := Int.floor_add_fract x
      have : 0 < Int.fract x := lt_of_le_of_ne h0 (Ne.symm hf)
      linarith
    exact Int.lt_ceil.mpr hx
  unfold roundHalfEven
  split
  · exact hfc
  · rename_i h1
    split
    · rename_i h2
      exact key (by intro h0; rw [h0] at h2; norm_num at h2)
    · rename_i h2
      have hhalf : Int.fract x = 1/2 := le_antisymm (not_lt.mp h2) (not_lt.mp h1)
      have : Int.fract x ≠ 0 := by rw [hhalf]; norm_num
      split
      · exact hfc
      · exact key this

theorem roundHalfEven_mono {x y : ℚ} (h : x ≤ y) : roundHalfEven x ≤ roundHalfEven y := by
  rcases lt_or_eq_of_le (Int.floor_le_floor h : ⌊x⌋ ≤ ⌊y⌋) with hf | hf
  · calc roundHalfEven x ≤ ⌈x⌉ := roundHalfEven_le_ceil x
      _ ≤ ⌊x⌋ + 1 := Int.ceil_le_floor_add_one x
      _ ≤ ⌊y⌋ := by omega
      _ ≤ roundHalfEven y := floor_le_roundHalfEven y
  · have hfr : Int.fract x ≤ Int.fract y := by
      have h1 : (⌊x⌋ : ℚ) + Int.fract x = x := Int.floor_add_fract x
      have h2 : (⌊y⌋ : ℚ) + Int.fract y = y := Int.floor_add_fract y
      have h3 : ((⌊x⌋ : ℤ) : ℚ) = ((⌊y⌋ : ℤ) : ℚ) := by exact_mod_cast hf
      linarith
    unfold roundHalfEven
    rw [hf]
    split_ifs <;> first | omega | linarith

theorem pyRound1_mono {x y : ℚ} (h : x ≤ y) : pyRound1 x ≤ pyRound1 y := by
  unfold pyRound1
  have h1 := roundHalfEven_mono (show 10 * x ≤ 10 * y by linarith)
  have h2 : ((roundHalfEven (10 * x) : ℤ) : ℚ) ≤ ((roundHalfEven (10 * y) : ℤ) : ℚ) := by
    exact_mod_cast h1
  linarith

theorem pyRound1_lower {a : ℤ} {x : ℚ} (h : (a : ℚ) ≤ x) : (a : ℚ) ≤ pyRound1 x := by
  unfold pyRound1
  have h1 : ((10 * a : ℤ) : ℚ) ≤ 10 * x := by push_cast; linarith
  have h2 : (10 * a : ℤ) ≤ ⌊(10 : ℚ) * x⌋ := Int.le_floor.mpr h1
  have h3 : (10 * a : ℤ) ≤ roundHalfEven (10 * x) :=
    le_trans h2 (floor_le_roundHalfEven _)
  have h4 : ((10 * a : ℤ) : ℚ) ≤ (roundHalfEven (10 * x) : ℚ) := by exact_mod_cast h3
  rw [le_div_iff₀ (by norm_num : (0:ℚ) < 10)]
  push_cast at h4 ⊢
  linarith

theorem pyRound1_upper {a : ℤ} {x : ℚ} (h : x ≤ (a : ℚ)) : pyRound1 x ≤ (a : ℚ) := by
  unfold pyRound1
  have h1 : 10 * x ≤ ((10 * a : ℤ) : ℚ) := by push_cast; linarith
  have h2 : ⌈(10 : ℚ) * x⌉ ≤ (10 * a : ℤ) := Int.ceil_le.mpr h1
  have h3 : roundHalfEven (10 * x) ≤ (10 * a : ℤ) :=
    le_trans (roundHalfEven_le_ceil _) h2
  have h4 : (roundHalfEven (10 * x) : ℚ) ≤ ((10 * a : ℤ) : ℚ) := by exact_mod_cast h3
  rw [div_le_iff₀ (by norm_num : (0:ℚ) < 10)]
  push_cast at h4 ⊢
  linarith

/-! ## Data model

Structures mirror the dictionary schemas flowing through `Logic.py`.
Fields that the code reads with `dict.get(key, default)` and that are always
present in the HTTP surface are modelled as total fields; truly optional keys
(`readyInMinutes`, `nutrition`) are `Option`s. -/

/-- One entry of `nutrition['nutrients']`: `{'name': ..., 'amount': ...}`. -/
structure Nutrient where
  name : String
  amount : ℚ
  deriving DecidableEq, Inhabited

/-- The `nutrition` block of a recipe (kept verbatim through the pipeline). -/
structure Nutrition where
  nutrients : List Nutrient
  deriving DecidableEq, Inhabited

/-- The `dietary_info` block with API boolean flags; a missing block behaves
exactly like all-`False` flags because every reader uses `.get(flag, False)`. -/
structure DietaryInfo where
  dairyFree : Bool
  glutenFree : Bool
  vegan : Bool
  vegetarian : Bool
  deriving DecidableEq, Inhabited

/-- One entry of `extendedIngredients`: either a plain string or a record
with the name fields the code probes (`name`, `original`, `originalName`)
plus the remaining string-valued fields (units etc.), which only the
vegetarian pre-filter in `process_results` scans. -/
inductive Ing where
  | str (s : String)
  | obj (name original originalName : String) (others : List String)
  deriving DecidableEq, Inhabited

/-- One raw recipe as handed to `PantryChefEngine.process_results`. -/
structure Recipe where
  id : ℤ
  title : String
  summary : String
  image : String
  readyInMinutes : Option ℤ
  servings : ℤ
  usedIngredientCount : ℕ
  missedIngredientCount : ℕ
  extendedIngredients : List Ing
  nutrition : Option Nutrition
  instructions : String
  analyzedInstructions : List String
  cuisines : List String
  dishTypes : List String
  diets : List String
  dietary_info : DietaryInfo
  deriving DecidableEq, Inhabited

/-- The per-request user settings dictionary (`user_settings` in `Logic.py`).
`max_time` is stored separately because the code reads
`settings.get('max_time', settings.get('max_time_minutes', 120))`. -/
structure Settings where
  user_profile : String
  mood : String
  max_difficulty : String
  max_time_minutes : ℤ
  max_missing_ingredients : ℤ
  dietary_requirements : List String
  intolerances : List String
  skill_level : ℤ
  max_time : ℤ
  deriving DecidableEq, Inhabited

/-- `USER_PROFILES[...]['weights']` as a `(used, missing)` pair, with the
constructor's fallback: `USER_PROFILES.get(profile, USER_PROFILES['balanced'])`. -/
def profileWeights (p : String) : ℚ × ℚ :=
  if p = "minimal_shopper" then (3/10, 7/10)
  else if p = "pantry_cleaner" then (7/10, 3/10)
  else (1/2, 1/2)

/-- `MOOD_WEIGHTS[...]` -/
structure MoodWeights where
  time : ℚ
  effort : ℚ
  skill : ℚ
  shopping : ℚ
  deriving DecidableEq, Inhabited

/-- `MOOD_WEIGHTS.get(mood, MOOD_WEIGHTS['casual'])`. -/
def moodWeights (m : String) : MoodWeights :=
  if m = "tired" then ⟨1/2, 7/10, 3/10, 8/10⟩
  else if m = "energetic" then ⟨3/10, 4/10, 7/10, 4/10⟩
  else ⟨1/2, 1/2, 1/2, 1/2⟩

/-- `DIFFICULTY_ORDER[level]` (total on the three levels the code produces). -/
def difficultyOrder (level : String) : ℤ :=
  if level = "easy" then 1 else if level = "medium" then 2 else 3

/-- `DIFFICULTY_ORDER.get(max_difficulty, 3)`. -/
def difficultyOrderD (level : String) : ℤ :=
  if level = "easy" then 1
  else if level = "medium" then 2
  else if level = "hard" then 3
  else 3

/-- `DIFFICULTY_SKILL_MAP.get(difficulty, 50)`. -/
def difficultySkillMap (level : String) : ℤ :=
  if level = "easy" then 30
  else if level = "medium" then 60
  else if level = "hard" then 90
  else 50

/-! ## Keyword lists (verbatim from `Logic.py`) -/

/-- `MEAT_KEYWORDS` of `process_results` (the vegetarian pre-filter). -/
def MEAT_KEYWORDS : List String :=
  ["meat", "beef", "pork", "lamb", "mutton", "veal", "venison", "chicken",
   "poultry", "turkey", "duck", "goose", "fish", "seafood", "shrimp", "prawn",
   "crab", "lobster", "mussel", "clam", "oyster", "squid", "octopus", "bacon",
   "ham", "sausage", "pepperoni", "salami", "prosciutto", "steak", "ribs",
   "lard", "tallow", "gelatin", "anchovy", "sardine", "tuna", "salmon", "cod"]

/-- `LAND_MEAT` of `_apply_safety_check`. -/
def LAND_MEAT : List String :=
  ["chicken", "turkey", "beef", "steak", "pork", "lamb", "mutton", "venison", "veal",
   "duck", "goose", "bacon", "ham", "sausage", "pepperoni", "salami", "chorizo",
   "meatball", "lard", "tallow", "gelatin"]

/-- `SEA_MEAT` of `_apply_safety_check`. -/
def SEA_MEAT : List String :=
  ["fish", "salmon", "tuna", "cod", "tilapia", "shrimp", "prawn", "crab", "lobster",
   "mussel", "clam", "oyster", "squid", "calamari", "octopus", "anchovy", "sardine",
   "fish sauce", "oyster sauce"]

/-- `DAIRY_EGGS` of `_apply_safety_check`. -/
def DAIRY_EGGS : List String :=
  ["egg", "milk", "cream", "butter", "cheese", "yogurt", "whey", "casein"]

/-- `ALLERGY_MAP.get(key, [])` of `_apply_safety_check`. -/
def ALLERGY_MAP (key : String) : List String :=
  if key = "dairy" then ["cheese", "milk", "butter", "cream", "yogurt", "dairy"]
  else if key = "gluten" then ["wheat", "flour", "pasta", "bread", "gluten"]
  else if key = "eggs" then ["egg", "eggs", "mayonnaise"]
  else if key = "nuts" then ["nuts", "almond", "peanut", "cashew"]
  else []

/-- `SAFE_WORDS.get(key, [])` of `_apply_safety_check`. -/
def SAFE_WORDS (key : String) : List String :=
  if key = "dairy" then ["vegan", "plant-based", "non-dairy", "almond", "coconut", "oat"]
  else if key = "gluten" then ["gluten-free", "gf"]
  else if key = "eggs" then ["egg-free", "vegan", "plant-based"]
  else if key = "nuts" then ["nut-free"]
  else []

/-! ## Safety gate (`_apply_safety_check`) -/

/-- Ingredient-name extraction used by both scans in `_apply_safety_check`:
for a record, the first non-empty of `name`/`original`/`originalName`
(skipped entirely when all are empty); a plain string is always kept.
Every kept name is lower-cased. -/
def ingredientNamesLower (l : List Ing) : List String :=
  l.foldr (fun i acc =>
    match i with
    | .str s => pyLower s :: acc
    | .obj name original originalName _ =>
      let nm := pyOr name (pyOr original originalName)
      if nm = "" then acc else pyLower nm :: acc) []

/-- `ingredients_text` of the diet scan: `' '.join(ingredient_names)`. -/
def manifestText (r : Recipe) : String :=
  String.intercalate " " (ingredientNamesLower r.extendedIngredients)

/-- `recipe_text` of the intolerance scan:
`recipe.get('title', '').lower() + " " + " ".join(ingredient_names)`.
Note that, unlike the diet scan, this text INCLUDES the title. -/
def intoleranceText (r : Recipe) : String :=
  pyLower r.title ++ " " ++ String.intercalate " " (ingredientNamesLower r.extendedIngredients)

/-- The dictionary returned by `_apply_safety_check`.  Fields are `Option`s
where some code path omits the key (the intolerance hard-cutoff return omits
`safety_score`, `safety_reason` and `requires_ai_validation`); bookkeeping
lists (`found_intolerances`, `suspicious_ingredients`,
`safe_alternative_indicators`) and the duplicate `violation_note`/
`requires_ai_reassurance` keys feed only log output and the Gemini prompt
text and are not modelled. -/
structure SafetyCheck where
  passed : Bool
  safety_score : Option ℚ
  safety_reason : Option String
  reason : String
  requires_ai_validation : Option Bool
  deriving DecidableEq, Inhabited

/-- The `passed: True, safety_score: 1.0` dictionary returned both when no
intolerances are requested and when no intolerance keyword matches. -/
def safeResult : SafetyCheck :=
  { passed := true
    safety_score := some 1
    safety_reason := some "Safe - no intolerances found"
    reason := "Safe - no intolerances found"
    requires_ai_validation := some false }

/-- A `passed: False, safety_score: 0.0` diet rejection dictionary. -/
def dietReject (why shortWhy : String) : SafetyCheck :=
  { passed := false
    safety_score := some 0
    safety_reason := some why
    reason := shortWhy
    requires_ai_validation := some false }

/-- The soft-flag return of the intolerance scan (keyword hit with a
co-occurring safe word): survive with `requires_ai_validation = True` and the
fixed safety score 0.5. -/
def softFlagResult (kw : String) : SafetyCheck :=
  { passed := true
    safety_score := some (1/2)
    safety_reason := some ("Contains " ++ kw ++ " with safe-word—Gemini must verify")
    reason := "Found " ++ kw ++ " with safe-word; Gemini must verify."
    requires_ai_validation := some true }

/-- The hard-cutoff return of the intolerance scan (keyword hit without a
safe word); note this dictionary carries no `safety_score` and no
`requires_ai_validation` key. -/
def hardCutoffResult (kw : String) : SafetyCheck :=
  { passed := false
    safety_score := none
    safety_reason := none
    reason := "Hard cutoff: " ++ kw ++ " found without safe keywords."
    requires_ai_validation := none }

/-- The diet-based part of `_apply_safety_check` (steps on vegetarian /
vegan / pescatarian): `some verdict` when a rejection fires, `none` when
control falls through to the intolerance scan.  It searches only
`manifestText` — never the title or summary. -/
def dietScan (s : Settings) (r : Recipe) : Option SafetyCheck :=
  let dietaryLower := s.dietary_requirements.map pyLower
  let isVegetarian := dietaryLower.contains "vegetarian"
  let isVegan := dietaryLower.contains "vegan"
  let isPescatarian := dietaryLower.contains "pescatarian"
  if isVegetarian || isVegan || isPescatarian then
    let text := manifestText r
    if isVegetarian then
      if LAND_MEAT.any (fun kw => pyIn kw text) then
        some (dietReject "Contains land meat in ingredients - violates vegetarian diet"
          "Contains land meat keywords in ingredients")
      else if SEA_MEAT.any (fun kw => pyIn kw text) then
        some (dietReject "Contains seafood in ingredients - violates vegetarian diet"
          "Contains seafood keywords in ingredients")
      else none
    else if isVegan then
      if LAND_MEAT.any (fun kw => pyIn kw text) then
        some (dietReject "Contains land meat in ingredients - violates vegan diet"
          "Contains land meat keywords in ingredients")
      else if SEA_MEAT.any (fun kw => pyIn kw text) then
        some (dietReject "Contains seafood in ingredients - violates vegan diet"
          "Contains seafood keywords in ingredients")
      else if DAIRY_EGGS.any (fun kw => pyIn kw text) &&
          !((SAFE_WORDS "dairy" ++ SAFE_WORDS "eggs").any (fun sw => pyIn sw text)) then
        some (dietReject "Contains dairy/eggs in ingredients - violates vegan diet"
          "Contains dairy/egg keywords without safe alternatives")
      else none
    else
      if LAND_MEAT.any (fun kw => pyIn kw text) then
        some (dietReject "Contains land meat in ingredients - violates pescatarian diet"
          "Contains land meat keywords in ingredients")
      else none
  else none

/-- Processing of a single requested intolerance over the (title +
ingredients) search text: the first `ALLERGY_MAP` keyword found in the text
decides — soft flag if any `SAFE_WORDS` entry occurs anywhere in the same
text, hard cutoff otherwise; `none` if no keyword matches. -/
def scanOneIntolerance (text intolerance : String) : Option SafetyCheck :=
  let key := pyLower intolerance
  match (ALLERGY_MAP key).find? (fun kw => pyIn kw text) with
  | some kw =>
    if (SAFE_WORDS key).any (fun sw => pyIn sw text) then some (softFlagResult kw)
    else some (hardCutoffResult kw)
  | none => none

/-- The intolerance part of `_apply_safety_check`: early `safeResult` when no
intolerances are requested; otherwise the first keyword hit over the
requested intolerances (in request order) decides, else `safeResult`. -/
def intoleranceScan (s : Settings) (r : Recipe) : SafetyCheck :=
  if s.intolerances.isEmpty then safeResult
  else
    let text := intoleranceText r
    (s.intolerances.findSome? (fun i => scanOneIntolerance text i)).getD safeResult

/-- `_apply_safety_check(recipe)`. -/
def apply_safety_check (s : Settings) (r : Recipe) : SafetyCheck :=
  (dietScan s r).getD (intoleranceScan s r)

/-! ## Progressive filter chain (`_apply_soft_filters_with_penalties`) -/

/-- Result of `_assess_difficulty`. -/
structure DifficultyCheck where
  passed : Bool
  level : String
  max_allowed : String
  ingredient_count : ℕ
  ready_time : ℤ
  time_adjusted : Bool
  deriving DecidableEq, Inhabited

/-- Result of `_check_time_limit` (`estimate` is the string `'unknown'` in
Python when `readyInMinutes` is absent; modelled as `none`). -/
structure TimeCheck where
  passed : Bool
  estimate : Option ℤ
  max_allowed : ℤ
  deriving DecidableEq, Inhabited

/-- Result of `_check_missing_limit`. -/
structure MissingCheck where
  passed : Bool
  count : ℕ
  max_allowed : ℤ
  deriving DecidableEq, Inhabited

/-- Result of `_check_dietary_requirements`. -/
structure DietaryCheck where
  passed : Bool
  reason : String
  requirements_checked : List String
  intolerances_checked : List String
  confidence : String
  deriving DecidableEq, Inhabited

/-- `_assess_difficulty(recipe, max_difficulty)`: base level from the total
ingredient count (≤5 easy, ≤10 medium, else hard), bumped one tier when
`readyInMinutes` (default 0) exceeds 60 minutes. -/
def assess_difficulty (r : Recipe) (max_difficulty : String) : DifficultyCheck :=
  let total : ℕ := r.usedIngredientCount + r.missedIngredientCount
  let ready : ℤ := r.readyInMinutes.getD 0
  let base := if total ≤ 5 then "easy" else if total ≤ 10 then "medium" else "hard"
  let level :=
    if ready > 60 then
      if base = "easy" then "medium" else if base = "medium" then "hard" else base
    else base
  { passed := decide (difficultyOrder level ≤ difficultyOrderD max_difficulty)
    level := level
    max_allowed := max_difficulty
    ingredient_count := total
    ready_time := ready
    time_adjusted := decide (ready > 60) }

/-- `_check_time_limit(recipe, max_time)`: pass when `readyInMinutes` is
absent or within the limit. -/
def check_time_limit (r : Recipe) (max_time : ℤ) : TimeCheck :=
  match r.readyInMinutes with
  | none => { passed := true, estimate := none, max_allowed := max_time }
  | some t => { passed := decide (t ≤ max_time), estimate := some t, max_allowed := max_time }

/-- `_check_missing_limit(missed_count, max_missing)`. -/
def check_missing_limit (missed : ℕ) (max_missing : ℤ) : MissingCheck :=
  { passed := decide ((missed : ℤ) ≤ max_missing), count := missed, max_allowed := max_missing }

/-- Ingredient text of `_check_dietary_requirements`: joins the lower-cased
`name` field only (empty names included), unlike the safety-gate extraction. -/
def dietaryIngredientsText (r : Recipe) : String :=
  String.intercalate " "
    (r.extendedIngredients.map (fun i =>
      match i with
      | .obj name _ _ _ => pyLower name
      | .str s => pyLower s))

/-- The local keyword lists of `_check_dietary_requirements`. -/
def DIETARY_MEAT_KEYWORDS : List String :=
  ["chicken", "beef", "pork", "fish", "meat", "turkey", "lamb",
   "bacon", "sausage", "ham", "seafood", "shrimp", "salmon"]

def DIETARY_DAIRY_KEYWORDS : List String :=
  ["milk", "cheese", "butter", "cream", "yogurt", "sour cream",
   "heavy cream", "whipping cream"]

def DIETARY_EGG_KEYWORDS : List String := ["egg", "eggs"]

def DIETARY_GLUTEN_KEYWORDS : List String := ["flour", "wheat", "bread", "pasta", "noodles"]

/-- `_check_dietary_requirements(recipe, dietary_requirements, intolerances)`
(the pipeline always passes `[]` for the third argument because intolerances
were already handled by the safety gate).  The mutable
`passed`/`reasons`/`confidence_levels` accumulators are threaded as a fold
state, preserving the source's statement order — including the vegetarian
branch's explicit `passed = True` override when no meat is found. -/
def check_dietary_requirements (r : Recipe) (dietary_requirements intolerances : List String) :
    DietaryCheck :=
  if dietary_requirements.isEmpty && intolerances.isEmpty then
    { passed := true, reason := "No dietary restrictions"
      requirements_checked := [], intolerances_checked := [], confidence := "high" }
  else
    let apiDairyFree := r.dietary_info.dairyFree
    let apiGlutenFree := r.dietary_info.glutenFree
    let apiVegan := r.dietary_info.vegan
    let apiVegetarian := r.dietary_info.vegetarian
    let text := dietaryIngredientsText r
    let hasMeat := DIETARY_MEAT_KEYWORDS.any (fun kw => pyIn kw text)
    let hasDairy := DIETARY_DAIRY_KEYWORDS.any (fun kw => pyIn kw text)
    let hasEggs := DIETARY_EGG_KEYWORDS.any (fun kw => pyIn kw text)
    let hasGluten := DIETARY_GLUTEN_KEYWORDS.any (fun kw => pyIn kw text)
    let st1 := dietary_requirements.foldl
      (fun (st : Bool × List String × List String) req =>
        let (passed, reasons, confs) := st
        let reqLower := pyReplace (pyReplace (pyLower req) "-" "_") " " "_"
        if reqLower = "vegetarian" then
          if hasMeat then (false, reasons ++ ["contains meat"], confs)
          else (true, reasons, confs ++ [if apiVegetarian then "high" else "medium"])
        else if reqLower = "vegan" then
          if hasMeat || hasDairy || hasEggs then
            (false, reasons ++ ["contains animal products"], confs)
          else if apiVegan then (passed, reasons, confs ++ ["high"])
          else (passed, reasons, confs)
        else if reqLower = "gluten_free" then
          if hasGluten then
            if !apiGlutenFree then (false, reasons ++ ["contains gluten"], confs)
            else (passed,
              reasons ++ ["may contain gluten (API says gluten-free but keywords found)"], confs)
          else if apiGlutenFree then (passed, reasons, confs ++ ["high"])
          else (passed, reasons, confs)
        else if reqLower = "dairy_free" then
          if hasDairy then
            if !apiDairyFree then (false, reasons ++ ["contains dairy"], confs)
            else (passed,
              reasons ++ ["may contain dairy (API says dairy-free but keywords found)"], confs)
          else if apiDairyFree then (passed, reasons, confs ++ ["high"])
          else (passed, reasons, confs)
        else st)
      (true, [], [])
    let st2 := intolerances.foldl
      (fun (st : Bool × List String × List String) intolerance =>
        let (passed, reasons, confs) := st
        let intolLower := pyLower intolerance
        if intolLower = "dairy" then
          if hasDairy then
            if !apiDairyFree then (false, reasons ++ ["contains dairy"], confs)
            else (passed,
              reasons ++ ["may contain dairy (API says dairy-free but keywords found)"], confs)
          else if apiDairyFree then (passed, reasons, confs ++ ["high"])
          else (passed, reasons, confs)
        else if intolLower = "gluten" then
          if hasGluten then
            if !apiGlutenFree then (false, reasons ++ ["contains gluten"], confs)
            else (passed,
              reasons ++ ["may contain gluten (API says gluten-free but keywords found)"], confs)
          else if apiGlutenFree then (passed, reasons, confs ++ ["high"])
          else (passed, reasons, confs)
        else if intolLower = "eggs" then
          if hasEggs then (false, reasons ++ ["contains eggs"], confs)
          else if apiVegan then (passed, reasons, confs ++ ["high"])
          else (passed, reasons, confs)
        else st)
      st1
    let (passed, reasons, confs) := st2
    let confidence :=
      if !confs.isEmpty && confs.all (fun c => c == "high") then "high" else "medium"
    { passed := passed
      reason := if reasons.isEmpty then "meets requirements" else String.intercalate "; " reasons
      requirements_checked := dietary_requirements
      intolerances_checked := intolerances
      confidence := confidence }

/-- The four per-dimension results stored under `filter_results`. -/
structure FilterSubResults where
  difficulty : DifficultyCheck
  time : TimeCheck
  missing_ingredients : MissingCheck
  dietary : DietaryCheck
  deriving DecidableEq, Inhabited

/-- The dictionary returned by `_apply_soft_filters_with_penalties`. -/
structure FilterResult where
  passed : Bool
  filter_results : FilterSubResults
  penalty_score : ℚ
  violations : List String
  deriving DecidableEq, Inhabited

/-- The flat 15-point penalty for a failed difficulty check. -/
def difficultyPenalty (dc : DifficultyCheck) : ℚ := if dc.passed then 0 else 15

/-- The time-overage penalty: 2 points per minute over the limit, capped at
30 (the `none` branch is Python's `isinstance` fallback of a flat 10,
unreachable because a failed time check always has a numeric estimate). -/
def timePenalty (tc : TimeCheck) : ℚ :=
  if tc.passed then 0
  else match tc.estimate with
    | some t => min (((t - tc.max_allowed : ℤ) : ℚ) * 2) 30
    | none => 10

/-- The uncapped 5-points-per-extra-missing-ingredient penalty. -/
def missingPenalty (mc : MissingCheck) : ℚ :=
  if mc.passed then 0 else (((mc.count : ℤ) - mc.max_allowed : ℤ) : ℚ) * 5

/-- The flat 10-point penalty for a failed dietary-preference check. -/
def dietaryPenalty (dc : DietaryCheck) : ℚ := if dc.passed then 0 else 10

/-- `_apply_soft_filters_with_penalties(recipe)`: every sub-check failure
adds a penalty, the top-level `passed` is the literal `True`. -/
def apply_soft_filters_with_penalties (s : Settings) (r : Recipe) : FilterResult :=
  let dc := assess_difficulty r s.max_difficulty
  let dViol : List String :=
    if dc.passed then [] else ["difficulty: " ++ dc.level ++ " > " ++ dc.max_allowed]
  let tc := check_time_limit r s.max_time_minutes
  let tViol : List String :=
    if tc.passed then []
    else match tc.estimate with
      | some t => ["time: " ++ toString t ++ " min > " ++ toString tc.max_allowed ++ " min"]
      | none => ["time: unknown min > " ++ toString tc.max_allowed ++ " min"]
  let mc := check_missing_limit r.missedIngredientCount s.max_missing_ingredients
  let mViol : List String :=
    if mc.passed then []
    else ["missing_ingredients: " ++ toString mc.count ++ " > " ++ toString mc.max_allowed]
  let dietc := check_dietary_requirements r s.dietary_requirements []
  let dietViol : List String := if dietc.passed then [] else ["dietary: " ++ dietc.reason]
  { passed := true
    filter_results := ⟨dc, tc, mc, dietc⟩
    penalty_score := difficultyPenalty dc + timePenalty tc + missingPenalty mc + dietaryPenalty dietc
    violations := dViol ++ tViol ++ mViol ++ dietViol }

/-! ## Scoring engine (`_calculate_smart_score`) -/

/-- The dictionary returned by `_calculate_smart_score` (the non-zero branch
additionally stores the weight pair, which no downstream reader consumes). -/
structure ScoringData where
  smart_score : ℚ
  used_score : ℚ
  missing_score : ℚ
  breakdown : String
  deriving DecidableEq, Inhabited

/-- `_get_score_breakdown(used_percent, missed_percent, weights)` — the
human-readable breakdown, with the source's parentheses:
`f"({wU}×{usedPct:.1f}%) + ({wM}×{100-missedPct:.1f}%) = {usedComp} + {missedComp}"`. -/
def get_score_breakdown (usedPercent missedPercent : ℚ) (weights : ℚ × ℚ) : String :=
  let usedComp := pyRound1 (weights.1 * usedPercent)
  let missingComp := pyRound1 (weights.2 * (100 - missedPercent))
  "(" ++ pyFmt1 weights.1 ++ "×" ++ pyFmt1 usedPercent ++ "%) + (" ++
    pyFmt1 weights.2 ++ "×" ++ pyFmt1 (100 - missedPercent) ++ "%) = " ++
    pyFmt1 usedComp ++ " + " ++ pyFmt1 missingComp

/-- `_calculate_smart_score(recipe)` as a function of the used/missed counts
and the engine's profile weights. -/
def calculate_smart_score (weights : ℚ × ℚ) (used missed : ℕ) : ScoringData :=
  let total := used + missed
  if total = 0 then
    { smart_score := 0, used_score := 0, missing_score := 0, breakdown := "No ingredient data" }
  else
    let usedPercent : ℚ := ((used : ℚ) / (total : ℚ)) * 100
    let missedPercent : ℚ := ((missed : ℚ) / (total : ℚ)) * 100
    let usedComponent := weights.1 * usedPercent
    let missedComponent := weights.2 * (100 - missedPercent)
    { smart_score := pyRound1 (usedComponent + missedComponent)
      used_score := pyRound1 usedPercent
      missing_score := pyRound1 (100 - missedPercent)
      breakdown := get_score_breakdown usedPercent missedPercent weights }

/-! ## Reasoning engine (`_apply_reasoning(_with_penalties)`) -/

/-- The `internal_debug` block. -/
structure InternalDebug where
  internal_score : ℚ
  time_score : ℚ
  skill_score : ℚ
  shopping_score : ℚ
  weights_used : MoodWeights
  deriving DecidableEq, Inhabited

/-- The dictionary returned by `_apply_reasoning` (confidence is a Python
`int` at this stage). -/
structure ReasoningBase where
  confidence : ℤ
  text : String
  internal_debug : InternalDebug
  deriving DecidableEq, Inhabited

/-- `_apply_reasoning(recipe, smart_score, filter_result)`.  Python's
truthiness tests `if time_estimate and max_time` become explicit non-`none`
and non-zero tests. -/
def apply_reasoning (s : Settings) (r : Recipe) (smart_score : ℚ) (fr : FilterResult) :
    ReasoningBase :=
  let timeEstimate := r.readyInMinutes
  let difficulty := fr.filter_results.difficulty.level
  let missedCount := r.missedIngredientCount
  let total := r.usedIngredientCount + r.missedIngredientCount
  let maxTime := s.max_time
  let timeScore : ℚ :=
    match timeEstimate with
    | some t => if t != 0 && maxTime != 0 then max (1/10) (1 - (t : ℚ) / (maxTime : ℚ)) else 1/2
    | none => 1/2
  let requiredSkill := difficultySkillMap difficulty
  let skillScore : ℚ :=
    if s.skill_level ≥ requiredSkill then 1
    else max (1/5) (1 - ((requiredSkill - s.skill_level : ℤ) : ℚ) / 100)
  let shoppingScore : ℚ :=
    if total > 0 then 1 - (missedCount : ℚ) / (total : ℚ) else 1/2
  let adjustedTimeScore := if s.mood = "tired" then timeScore * 2 else timeScore
  let mw := moodWeights s.mood
  let internalScore :=
    (smart_score / 100) * (4/10) + adjustedTimeScore * mw.time * (25/100) +
      skillScore * mw.skill * (2/10) + shoppingScore * mw.shopping * (15/100)
  let reasons0 : List String :=
    if missedCount ≤ 1 then ["requires very little shopping"]
    else if missedCount ≤ 3 then ["only needs a few extra ingredients"]
    else []
  let quick : Bool :=
    match timeEstimate with
    | some t => t != 0 && maxTime != 0 && decide ((t : ℚ) ≤ (maxTime : ℚ) * (7/10))
    | none => false
  let reasons1 := reasons0 ++ (if quick then ["quick to prepare"] else [])
  let reasons2 := reasons1 ++ (if difficulty = "easy" then ["easy to cook up"] else [])
  let underTime : Bool :=
    match timeEstimate with
    | some t => t != 0 && maxTime != 0 && decide (t ≤ maxTime)
    | none => false
  let quick20 : Bool :=
    match timeEstimate with
    | some t => t != 0 && decide (t ≤ 20)
    | none => false
  let tiredQuick : Bool := (s.mood == "tired") && quick20
  let tiredReason := "perfect for when you\x27re tired - super quick!"
  let reasons3 :=
    if tiredQuick then
      if reasons2.contains tiredReason then reasons2 else reasons2 ++ [tiredReason]
    else reasons2
  let confidence : ℤ :=
    min
      (75 + (if missedCount ≤ 1 then 10 else 0) + (if difficulty = "easy" then 5 else 0) +
        (if underTime then 5 else 0) + (if tiredQuick then 15 else 0) +
        (if missedCount ≤ 1 && difficulty == "easy" && quick20 then 5 else 0))
      95
  let text :=
    if s.mood = "tired" then "Best option for zero effort."
    else if reasons3.isEmpty then "Matches your preferences pretty well"
    else "Good match because it " ++ String.intercalate ", " reasons3
  { confidence := confidence
    text := text
    internal_debug :=
      { internal_score := pyRound1 (internalScore * 100)
        time_score := pyRound2 timeScore
        skill_score := pyRound2 skillScore
        shopping_score := pyRound2 shoppingScore
        weights_used := mw } }

/-- The dictionary returned by `_apply_reasoning_with_penalties`. -/
structure ReasoningFinal where
  confidence : ℚ
  text : String
  penalty_applied : ℚ
  violations : List String
  internal_debug : InternalDebug
  deriving DecidableEq, Inhabited

/-- `_apply_reasoning_with_penalties(recipe, smart_score, filter_result)`:
confidence is the base confidence reduced by the penalty score, floored at
50 and rounded to one decimal. -/
def apply_reasoning_with_penalties (s : Settings) (r : Recipe) (smart_score : ℚ)
    (fr : FilterResult) : ReasoningFinal :=
  let base := apply_reasoning s r smart_score fr
  let penalty := fr.penalty_score
  let adjusted : ℚ := max 50 ((base.confidence : ℚ) - penalty)
  let text :=
    if fr.violations.isEmpty then base.text
    else base.text ++ " (Note: " ++ String.intercalate ", " (fr.violations.take 2) ++ ")"
  { confidence := pyRound1 adjusted
    text := text
    penalty_applied := penalty
    violations := fr.violations
    internal_debug := base.internal_debug }

/-! ## Result assembly (`_build_metadata_dict`, `_clean_data`) -/

/-- `violation_flags` of the metadata block (`has_nutritional_violation` is
hard-coded `False` in the source). -/
structure ViolationFlags where
  has_time_violation : Bool
  has_missing_violation : Bool
  has_difficulty_violation : Bool
  has_dietary_violation : Bool
  has_nutritional_violation : Bool
  deriving DecidableEq, Inhabited

/-- The `_metadata` block. -/
structure Metadata where
  smart_score : ℚ
  internal_debug : InternalDebug
  scoring_breakdown : String
  used_score : ℚ
  missing_score : ℚ
  filter_results : FilterSubResults
  safety_check : SafetyCheck
  penalty_applied : ℚ
  penalty_score : ℚ
  violations : List String
  violation_flags : ViolationFlags
  deriving DecidableEq, Inhabited

/-- `_build_metadata_dict(scoring_data, reasoning_data, filter_result, safety_check)`. -/
def build_metadata_dict (scoring : ScoringData) (reasoning : ReasoningFinal)
    (fr : FilterResult) (sc : SafetyCheck) : Metadata :=
  let violationsList := reasoning.violations
  { smart_score := scoring.smart_score
    internal_debug := reasoning.internal_debug
    scoring_breakdown := scoring.breakdown
    used_score := scoring.used_score
    missing_score := scoring.missing_score
    filter_results := fr.filter_results
    safety_check := sc
    penalty_applied := reasoning.penalty_applied
    penalty_score := fr.penalty_score
    violations := violationsList
    violation_flags :=
      { has_time_violation := violationsList.any (fun v => pyIn "time:" v)
        has_missing_violation := violationsList.any (fun v => pyIn "missing_ingredients:" v)
        has_difficulty_violation := violationsList.any (fun v => pyIn "difficulty:" v)
        has_dietary_violation := violationsList.any (fun v => pyIn "dietary:" v)
        has_nutritional_violation := false } }

/-- Big-4 `nutrition_summary` block. -/
structure NutritionSummary where
  protein : ℚ
  calories : ℚ
  fat : ℚ
  carbs : ℚ
  deriving DecidableEq, Inhabited

/-- `nutrient_dict.get(name, 0)` where `nutrient_dict` is the comprehension
`{nut['name']: nut['amount'] for nut in nutrition['nutrients']}` (a later
duplicate name overrides an earlier one, hence the reverse lookup). -/
def nutrientAmount (n : Option Nutrition) (nm : String) : ℚ :=
  match n with
  | none => 0
  | some nut =>
    match nut.nutrients.reverse.find? (fun x => x.name == nm) with
    | some x => x.amount
    | none => 0

/-- The clean per-recipe output dictionary built by `_clean_data`.  The two
purely prompt-facing fields (`semantic_context`, generated by
`_generate_semantic_context` for the LLM, and the constant empty
`ai_nutrient_flags` placeholder) are not modelled: no downstream code of the
pipeline reads them. -/
structure CleanRecipe where
  id : ℤ
  title : String
  image : String
  confidence : ℚ
  match_confidence : ℚ
  time : ℤ
  reasoning : String
  extendedIngredients : List Ing
  servings : ℤ
  instructions : String
  analyzedInstructions : List String
  raw_ingredients_for_ai : List Ing
  nutrition : Option Nutrition
  cuisines : List String
  dishTypes : List String
  diets : List String
  used_ingredients : ℕ
  missing_ingredients : ℕ
  difficulty : String
  protein : ℚ
  calories : ℚ
  carbs : ℚ
  nutrition_summary : NutritionSummary
  is_stub_recipe : Bool
  metadata : Metadata
  deriving DecidableEq, Inhabited

/-- `_clean_data(recipe, scoring_data, reasoning_data, filter_result,
safety_check)`.  The final dictionary maps `extendedIngredients`,
`raw_ingredients_for_ai` and `nutrition` directly from the input recipe
(the defensive fallback locals computed earlier in the Python body are not
used by the returned dictionary). -/
def clean_data (r : Recipe) (scoring : ScoringData) (reasoning : ReasoningFinal)
    (fr : FilterResult) (sc : SafetyCheck) : CleanRecipe :=
  let timeEstimate := r.readyInMinutes.getD 0
  let protein := nutrientAmount r.nutrition "Protein"
  let carbs := nutrientAmount r.nutrition "Carbohydrates"
  let calories := nutrientAmount r.nutrition "Calories"
  let fat := nutrientAmount r.nutrition "Fat"
  { id := r.id
    title := r.title
    image := r.image
    confidence := reasoning.confidence
    match_confidence := reasoning.confidence
    time := timeEstimate
    reasoning := reasoning.text
    extendedIngredients := r.extendedIngredients
    servings := r.servings
    instructions := r.instructions
    analyzedInstructions := r.analyzedInstructions
    raw_ingredients_for_ai := r.extendedIngredients
    nutrition := r.nutrition
    cuisines := r.cuisines
    dishTypes := r.dishTypes
    diets := r.diets
    used_ingredients := r.usedIngredientCount
    missing_ingredients := r.missedIngredientCount
    difficulty := fr.filter_results.difficulty.level
    protein := protein
    calories := calories
    carbs := carbs
    nutrition_summary := ⟨protein, calories, fat, carbs⟩
    is_stub_recipe :=
      r.nutrition.isNone || r.instructions == "" || r.analyzedInstructions.isEmpty ||
        r.servings == 0 || r.extendedIngredients.isEmpty
    metadata := build_metadata_dict scoring reasoning fr sc }

/-! ## `process_results` and the orchestrator -/

/-- The text parts one `extendedIngredients` entry contributes to the
vegetarian pre-filter of `process_results`: the extracted name (when
non-empty) followed by every non-empty string-valued field of the record. -/
def executionerParts (i : Ing) : List String :=
  match i with
  | .str s => [s]
  | .obj name original originalName others =>
    let nm := pyOr name (pyOr original originalName)
    (if nm = "" then [] else [nm]) ++ ([name, original, originalName] ++ others).filter (fun v => v ≠ "")

/-- The full search text of the vegetarian pre-filter ("HARD EXECUTIONER")
in `process_results`: title, summary and every ingredient string, joined and
lower-cased.  Unlike `_apply_safety_check`, this text DOES include the title
and summary. -/
def executionerText (r : Recipe) : String :=
  pyLower (String.intercalate " "
    ([r.title, r.summary] ++ (r.extendedIngredients.map executionerParts).flatten))

/-- The per-recipe body of the `process_results` loop: `none` means the
recipe was discarded (vegetarian pre-filter hit or safety gate failed),
`some c` is the assembled clean recommendation. -/
def processOne (s : Settings) (r : Recipe) : Option CleanRecipe :=
  if (s.dietary_requirements.map pyLower).contains "vegetarian" &&
      MEAT_KEYWORDS.any (fun kw => pyIn kw (executionerText r)) then none
  else if !(apply_safety_check s r).passed then none
  else
    some (clean_data r
      (calculate_smart_score (profileWeights s.user_profile)
        r.usedIngredientCount r.missedIngredientCount)
      (apply_reasoning_with_penalties s r
        (calculate_smart_score (profileWeights s.user_profile)
          r.usedIngredientCount r.missedIngredientCount).smart_score
        (apply_soft_filters_with_penalties s r))
      (apply_soft_filters_with_penalties s r)
      (apply_safety_check s r))

/-- Stable descending insertion by `match_confidence`, modelling
`sorted(..., key=lambda k: k.get('match_confidence', ...), reverse=True)`
(Python's sort is stable; equal keys keep their original order). -/
def insertByConfidence : List CleanRecipe → CleanRecipe → List CleanRecipe
  | [], c => [c]
  | d :: ds, c =>
    if d.match_confidence < c.match_confidence then c :: d :: ds
    else d :: insertByConfidence ds c

def sortByConfidenceDesc (l : List CleanRecipe) : List CleanRecipe :=
  l.foldl insertByConfidence []

/-- `PantryChefEngine.process_results(raw_recipes)`. -/
def process_results (s : Settings) (raw : List Recipe) : List CleanRecipe :=
  sortByConfidenceDesc (raw.filterMap (processOne s))

/-- The per-recipe keep condition of the orchestrator's ENFORCER loop.
`recipe.get('passed', True)` is vacuously `True` (clean recipes carry no
top-level `passed` key), then the metadata safety check's `passed` flag and
the `safety_score` floor (`.get('safety_score', 1.0) < 0.5` removes) apply. -/
def enforcerKeep (c : CleanRecipe) : Bool :=
  c.metadata.safety_check.passed &&
    !(decide (c.metadata.safety_check.safety_score.getD 1 < (1/2 : ℚ)))

/-- The orchestrator's SafetyEnforce pass. -/
def safetyEnforce (l : List CleanRecipe) : List CleanRecipe := l.filter enforcerKeep

/-- The Gemini-driven second safety pass: recipes whose title the LLM pitch
marked as REJECTED are removed (`r.get('title','') not in rejected_recipe_titles`).
The LLM response itself is an external collaborator, so the set of rejected
titles is a parameter here; it is empty whenever AI enrichment is disabled
or the pitch contains no rejection marker. -/
def geminiReject (rejectedTitles : List String) (l : List CleanRecipe) : List CleanRecipe :=
  l.filter (fun c => !(rejectedTitles.contains c.title))

/-- The recipe list returned by `run_pantry_chef` as a function of the raw
recipe list that the (out-of-scope) fetch stage produced: Logic-engine
processing, then the ENFORCER pass, then the Gemini rejection pass. -/
def run_pantry_chef (s : Settings) (raw : List Recipe) (rejectedTitles : List String) :
    List CleanRecipe :=
  geminiReject rejectedTitles (safetyEnforce (process_results s raw))

/-! ## Concrete fixtures

Small concrete settings and recipes used to witness the claim theorems and
to exhibit counterexamples.  They correspond to the end-to-end scenarios of
the specification. -/

/-- Baseline settings: balanced profile, casual mood, permissive limits. -/
def baseSettings : Settings :=
  { user_profile := "balanced", mood := "casual", max_difficulty := "hard",
    max_time_minutes := 120, max_missing_ingredients := 5,
    dietary_requirements := [], intolerances := [],
    skill_level := 50, max_time := 120 }

/-- Scenario 2 settings: `dietary_requirements = ["vegetarian"]`. -/
def vegSettings : Settings := { baseSettings with dietary_requirements := ["vegetarian"] }

/-- Scenario 3 settings: `intolerances = ["dairy"]`. -/
def dairySettings : Settings := { baseSettings with intolerances := ["dairy"] }

/-- Vegan settings for the vegan dairy/egg rule. -/
def veganSettings : Settings := { baseSettings with dietary_requirements := ["vegan"] }

/-- Combined vegetarian diet + dairy intolerance settings. -/
def vegDairySettings : Settings :=
  { baseSettings with dietary_requirements := ["vegetarian"], intolerances := ["dairy"] }

/-- A candidate whose manifest contains `"chicken broth"` (scenario 2). -/
def chickenBrothRecipe : Recipe :=
  { id := 1, title := "Mushroom Surprise", summary := "", image := "",
    readyInMinutes := some 30, servings := 2,
    usedIngredientCount := 2, missedIngredientCount := 1,
    extendedIngredients := [.obj "chicken broth" "" "" [], .obj "rice" "" "" []],
    nutrition := none, instructions := "cook", analyzedInstructions := ["step"],
    cuisines := [], dishTypes := [], diets := [],
    dietary_info := ⟨false, false, false, false⟩ }

/-- A candidate with ingredients `["almond milk", "pasta"]` (scenario 3). -/
def almondMilkPastaRecipe : Recipe :=
  { id := 2, title := "Creamless Pasta", summary := "", image := "",
    readyInMinutes := some 30, servings := 2,
    usedIngredientCount := 2, missedIngredientCount := 0,
    extendedIngredients := [.obj "almond milk" "" "" [], .obj "pasta" "" "" []],
    nutrition := none, instructions := "cook", analyzedInstructions := ["step"],
    cuisines := [], dishTypes := [], diets := [],
    dietary_info := ⟨false, false, false, false⟩ }

/-- A rice-only candidate titled `"tomato bake"`. -/
def tomatoBakeRecipe : Recipe :=
  { id := 3, title := "tomato bake", summary := "", image := "",
    readyInMinutes := some 30, servings := 2,
    usedIngredientCount := 1, missedIngredientCount := 0,
    extendedIngredients := [.obj "rice" "" "" []],
    nutrition := none, instructions := "cook", analyzedInstructions := ["step"],
    cuisines := [], dishTypes := [], diets := [],
    dietary_info := ⟨false, false, false, false⟩ }

/-- The same candidate as `tomatoBakeRecipe` except for its title, which
contains the dairy keyword `"cheese"`. -/
def cheeseBakeRecipe : Recipe := { tomatoBakeRecipe with id := 4, title := "cheese bake" }

/-- A candidate listing plain `"cheese"` alongside an unrelated
`"almond flour"` ingredient. -/
def cheeseAlmondFlourRecipe : Recipe :=
  { id := 5, title := "Flatbread", summary := "", image := "",
    readyInMinutes := some 30, servings := 2,
    usedIngredientCount := 1, missedIngredientCount := 1,
    extendedIngredients := [.obj "cheese" "" "" [], .obj "almond flour" "" "" []],
    nutrition := none, instructions := "cook", analyzedInstructions := ["step"],
    cuisines := [], dishTypes := [], diets := [],
    dietary_info := ⟨false, false, false, false⟩ }

/-- Ingredients `["almond milk", "chicken broth"]` — a dairy keyword hit
with a safe word, but also a land-meat hit. -/
def almondMilkChickenRecipe : Recipe :=
  { id := 6, title := "Soup", summary := "", image := "",
    readyInMinutes := some 30, servings := 2,
    usedIngredientCount := 2, missedIngredientCount := 0,
    extendedIngredients := [.obj "almond milk" "" "" [], .obj "chicken broth" "" "" []],
    nutrition := none, instructions := "cook", analyzedInstructions := ["step"],
    cuisines := [], dishTypes := [], diets := [],
    dietary_info := ⟨false, false, false, false⟩ }

/-! ## Helper lemmas -/

theorem difficultyPenalty_nonneg (dc : DifficultyCheck) : 0 ≤ difficultyPenalty dc := by
  unfold difficultyPenalty; split <;> norm_num

theorem timePenalty_nonneg (r : Recipe) (maxTime : ℤ) :
    0 ≤ timePenalty (check_time_limit r maxTime) := by
  unfold timePenalty check_time_limit
  cases hready : r.readyInMinutes with
  | none => simp
  | some t =>
    simp only
    by_cases h : t ≤ maxTime
    · simp [h]
    · simp only [decide_eq_true_eq, if_neg h]
      have h1 : (1 : ℚ) ≤ ((t - maxTime : ℤ) : ℚ) := by
        have : (1 : ℤ) ≤ t - maxTime := by omega
        exact_mod_cast this
      have h2 : (0:ℚ) ≤ ((t - maxTime : ℤ) : ℚ) * 2 := by linarith
      exact le_min h2 (by norm_num)

theorem missingPenalty_nonneg (missed : ℕ) (maxMissing : ℤ) :
    0 ≤ missingPenalty (check_missing_limit missed maxMissing) := by
  unfold missingPenalty check_missing_limit
  simp only
  by_cases h : (missed : ℤ) ≤ maxMissing
  · simp [h]
  · simp only [decide_eq_true_eq, if_neg h]
    have h1 : (0 : ℚ) ≤ (((missed : ℤ) - maxMissing : ℤ) : ℚ) := by
      have : (0 : ℤ) ≤ (missed : ℤ) - maxMissing := by omega
      exact_mod_cast this
    linarith

theorem dietaryPenalty_nonneg (dc : DietaryCheck) : 0 ≤ dietaryPenalty dc := by
  unfold dietaryPenalty; split <;> norm_num

/-- The cumulative penalty of the soft-filter chain is non-negative. -/
theorem soft_filters_penalty_nonneg (s : Settings) (r : Recipe) :
    0 ≤ (apply_soft_filters_with_penalties s r).penalty_score := by
  unfold apply_soft_filters_with_penalties
  simp only
  have h1 := difficultyPenalty_nonneg (assess_difficulty r s.max_difficulty)
  have h2 := timePenalty_nonneg r s.max_time_minutes
  have h3 := missingPenalty_nonneg r.missedIngredientCount s.max_missing_ingredients
  have h4 := dietaryPenalty_nonneg (check_dietary_requirements r s.dietary_requirements [])
  linarith

/-- The base confidence of `_apply_reasoning` lies in `[75, 95]`. -/
theorem apply_reasoning_confidence_bounds (s : Settings) (r : Recipe) (smart : ℚ)
    (fr : FilterResult) :
    75 ≤ (apply_reasoning s r smart fr).confidence ∧
      (apply_reasoning s r smart fr).confidence ≤ 95 := by
  unfold apply_reasoning
  simp only
  constructor
  · apply le_min _ (by norm_num)
    split_ifs <;> omega
  · exact min_le_right _ _

theorem mem_insertByConfidence {x c : CleanRecipe} {acc : List CleanRecipe} :
    x ∈ insertByConfidence acc c ↔ x = c ∨ x ∈ acc := by
  induction acc with
  | nil => simp [insertByConfidence]
  | cons d ds ih =>
    unfold insertByConfidence
    split
    · simp
    · simp only [List.mem_cons, ih]
      tauto

theorem mem_sortByConfidenceDesc {x : CleanRecipe} {l : List CleanRecipe} :
    x ∈ sortByConfidenceDesc l ↔ x ∈ l := by
  unfold sortByConfidenceDesc
  suffices h : ∀ (acc : List CleanRecipe), x ∈ l.foldl insertByConfidence acc ↔ x ∈ acc ∨ x ∈ l by
    simpa using h []
  induction l with
  | nil => intro acc; simp
  | cons c cs ih =>
    intro acc
    simp only [List.foldl_cons, ih, mem_insertByConfidence, List.mem_cons]
    tauto

/-- A recipe whose safety check fails contributes nothing to `process_results`. -/
theorem processOne_eq_none_of_safety_failed {s : Settings} {r : Recipe}
    (h : (apply_safety_check s r).passed = false) : processOne s r = none := by
  unfold processOne
  simp only [h]
  split <;> simp

theorem manifestText_congr {r1 r2 : Recipe}
    (h : r1.extendedIngredients = r2.extendedIngredients) :
    manifestText r1 = manifestText r2 := by
  unfold manifestText; rw [h]

theorem dietScan_congr (s : Settings) {r1 r2 : Recipe}
    (h : r1.extendedIngredients = r2.extendedIngredients) :
    dietScan s r1 = dietScan s r2 := by
  unfold dietScan
  rw [manifestText_congr h]

/-- Characterisation of the single-intolerance scan at a keyword hit: the
verdict is decided by the global safe-word test over the same search text. -/
theorem scanOneIntolerance_of_find {text i kw : String}
    (hfind : (ALLERGY_MAP (pyLower i)).find? (fun k => pyIn k text) = some kw) :
    scanOneIntolerance text i =
      (if (SAFE_WORDS (pyLower i)).any (fun sw => pyIn sw text) then some (softFlagResult kw)
       else some (hardCutoffResult kw)) := by
  unfold scanOneIntolerance
  simp only [hfind]

/-- With a single requested intolerance, the intolerance part of the safety
check is the scan of that intolerance (defaulting to the safe result). -/
theorem intoleranceScan_single {s : Settings} {r : Recipe} {i : String}
    (h : s.intolerances = [i]) :
    intoleranceScan s r = (scanOneIntolerance (intoleranceText r) i).getD safeResult := by
  unfold intoleranceScan
  rw [h]
  cases hscan : scanOneIntolerance (intoleranceText r) i <;>
    simp [List.findSome?_cons, hscan]

/-- When the diet scan falls through, the safety check is the intolerance
scan. -/
theorem apply_safety_check_of_dietScan_none {s : Settings} {r : Recipe}
    (h : dietScan s r = none) :
    apply_safety_check s r = intoleranceScan s r := by
  unfold apply_safety_check
  rw [h]
  rfl

/-- Non-negativity of the profile weight pairs (all three profiles and the
balanced fallback). -/
theorem profileWeights_nonneg (p : String) :
    0 ≤ (profileWeights p).1 ∧ 0 ≤ (profileWeights p).2 := by
  unfold profileWeights
  split_ifs <;> norm_num

/-- The penalty-adjusted confidence, unfolded. -/
theorem apply_reasoning_with_penalties_confidence (s : Settings) (r : Recipe)
    (smart : ℚ) (fr : FilterResult) :
    (apply_reasoning_with_penalties s r smart fr).confidence =
      pyRound1 (max 50 (((apply_reasoning s r smart fr).confidence : ℚ) - fr.penalty_score)) :=
  rfl

/-- The smart score on a non-empty manifest, unfolded to its formula. -/
theorem smart_score_eq_of_pos (w : ℚ × ℚ) (u m : ℕ) (h : u + m ≠ 0) :
    (calculate_smart_score w u m).smart_score =
      pyRound1 (w.1 * (((u : ℚ) / ((u + m : ℕ) : ℚ)) * 100) +
        w.2 * (100 - ((m : ℚ) / ((u + m : ℕ) : ℚ)) * 100)) := by
  unfold calculate_smart_score
  rw [if_neg h]

theorem smart_expr_nonneg (w : ℚ × ℚ) (hw1 : 0 ≤ w.1) (hw2 : 0 ≤ w.2) (u m : ℕ)
    (h : u + m ≠ 0) :
    0 ≤ w.1 * (((u : ℚ) / ((u + m : ℕ) : ℚ)) * 100) +
      w.2 * (100 - ((m : ℚ) / ((u + m : ℕ) : ℚ)) * 100) := by
  have hd : (0:ℚ) < ((u + m : ℕ) : ℚ) := by
    have := Nat.pos_of_ne_zero h
    exact_mod_cast this
  have h1 : (0:ℚ) ≤ (u : ℚ) / ((u + m : ℕ) : ℚ) := div_nonneg (by positivity) (le_of_lt hd)
  have h2 : (m : ℚ) / ((u + m : ℕ) : ℚ) ≤ 1 := by
    rw [div_le_one hd]
    exact_mod_cast Nat.le_add_left m u
  have t1 : (0:ℚ) ≤ w.1 * (((u : ℚ) / ((u + m : ℕ) : ℚ)) * 100) :=
    mul_nonneg hw1 (by linarith)
  have t2 : (0:ℚ) ≤ w.2 * (100 - ((m : ℚ) / ((u + m : ℕ) : ℚ)) * 100) :=
    mul_nonneg hw2 (by linarith)
  linarith

theorem smart_expr_mono (w : ℚ × ℚ) (hw1 : 0 ≤ w.1) (hw2 : 0 ≤ w.2) (m u1 u2 : ℕ)
    (h : u1 ≤ u2) (h1 : u1 + m ≠ 0) :
    w.1 * (((u1 : ℚ) / ((u1 + m : ℕ) : ℚ)) * 100) +
      w.2 * (100 - ((m : ℚ) / ((u1 + m : ℕ) : ℚ)) * 100) ≤
    w.1 * (((u2 : ℚ) / ((u2 + m : ℕ) : ℚ)) * 100) +
      w.2 * (100 - ((m : ℚ) / ((u2 + m : ℕ) : ℚ)) * 100) := by
  have h2 : u2 + m ≠ 0 := by omega
  have hd1 : (0:ℚ) < ((u1 + m : ℕ) : ℚ) := by
    have := Nat.pos_of_ne_zero h1
    exact_mod_cast this
  have hd2 : (0:ℚ) < ((u2 + m : ℕ) : ℚ) := by
    have := Nat.pos_of_ne_zero h2
    exact_mod_cast this
  have hu : (u1 : ℚ) ≤ (u2 : ℚ) := by exact_mod_cast h
  have hm : (0:ℚ) ≤ (m : ℚ) := by positivity
  have ha : (u1 : ℚ) / ((u1 + m : ℕ) : ℚ) ≤ (u2 : ℚ) / ((u2 + m : ℕ) : ℚ) := by
    rw [div_le_div_iff₀ hd1 hd2]
    push_cast
    nlinarith
  have hb : (m : ℚ) / ((u2 + m : ℕ) : ℚ) ≤ (m : ℚ) / ((u1 + m : ℕ) : ℚ) := by
    rw [div_le_div_iff₀ hd2 hd1]
    push_cast
    nlinarith
  have t1 : w.1 * (((u1 : ℚ) / ((u1 + m : ℕ) : ℚ)) * 100) ≤
      w.1 * (((u2 : ℚ) / ((u2 + m : ℕ) : ℚ)) * 100) :=
    mul_le_mul_of_nonneg_left (by linarith) hw1
  have t2 : w.2 * (100 - ((m : ℚ) / ((u1 + m : ℕ) : ℚ)) * 100) ≤
      w.2 * (100 - ((m : ℚ) / ((u2 + m : ℕ) : ℚ)) * 100) :=
    mul_le_mul_of_nonneg_left (by linarith) hw2
  linarith

/-! ## Claim theorems

Concrete evaluations below go through the kernel; the Batteries `Rat`
arithmetic operations are merely re-marked with their default reducibility
so that `decide` can evaluate them (the kernel itself never consults
reducibility attributes, so this does not weaken the final check). -/

set_option allowUnsafeReducibility true
attribute [local semireducible] Rat.mul Rat.add Rat.sub Rat.inv Rat.div Rat.ofScientific

/-- C1: for every candidate whose ingredient manifest contains a land-meat
or sea-meat keyword, when the settings' dietary requirements include
"vegetarian" the safety check returns a hard rejection (`passed = False`,
safety score `0.0`), and the candidate contributes nothing to the final
output list returned by the orchestrator (dropping it from the raw input
leaves the output unchanged, hence it is absent). -/
theorem vegetarian_meat_hard_reject_and_absent
    (s : Settings) (r : Recipe) (raw : List Recipe) (rejected : List String)
    (hveg : (s.dietary_requirements.map pyLower).contains "vegetarian" = true)
    (hmeat : ∃ kw ∈ LAND_MEAT ++ SEA_MEAT, pyIn kw (manifestText r) = true) :
    (apply_safety_check s r).passed = false ∧
    (apply_safety_check s r).safety_score = some 0 ∧
    run_pantry_chef s (r :: raw) rejected = run_pantry_chef s raw rejected := by
  obtain ⟨kw, hkw, hin⟩ := hmeat
  rw [List.mem_append] at hkw
  have hcheck : (apply_safety_check s r).passed = false ∧
      (apply_safety_check s r).safety_score = some 0 := by
    unfold apply_safety_check dietScan
    have hveg' : ∃ a ∈ s.dietary_requirements, pyLower a = "vegetarian" := by
      simpa using hveg
    by_cases hl : LAND_MEAT.any (fun k => pyIn k (manifestText r)) = true
    · simp [hveg', hl, dietReject]
    · have hs : SEA_MEAT.any (fun k => pyIn k (manifestText r)) = true := by
        rcases hkw with hkw | hkw
        · exact absurd (List.any_eq_true.mpr ⟨kw, hkw, hin⟩) hl
        · exact List.any_eq_true.mpr ⟨kw, hkw, hin⟩
      simp [hveg', hl, hs, dietReject]
  refine ⟨hcheck.1, hcheck.2, ?_⟩
  have hnone : processOne s r = none := processOne_eq_none_of_safety_failed hcheck.1
  unfold run_pantry_chef process_results
  rw [List.filterMap_cons_none hnone]

/-- Witness for C1 at scenario 2: vegetarian settings with a
`"chicken broth"` ingredient. -/
theorem vegetarian_meat_hard_reject_and_absent_witness :
    (apply_safety_check vegSettings chickenBrothRecipe).passed = false ∧
    (apply_safety_check vegSettings chickenBrothRecipe).safety_score = some 0 ∧
    run_pantry_chef vegSettings [chickenBrothRecipe] [] = run_pantry_chef vegSettings [] [] :=
  vegetarian_meat_hard_reject_and_absent vegSettings chickenBrothRecipe [] []
    (by decide) ⟨"chicken", by decide, by decide⟩

/-- C5: the progressive filter chain is a pure soft filter — for every
candidate and every settings its top-level `passed` is `True` and the
cumulative penalty score is non-negative; no candidate is excluded here. -/
theorem soft_filter_always_passes_nonneg_penalty (s : Settings) (r : Recipe) :
    (apply_soft_filters_with_penalties s r).passed = true ∧
    0 ≤ (apply_soft_filters_with_penalties s r).penalty_score :=
  ⟨rfl, soft_filters_penalty_nonneg s r⟩

/-- C2 counterexample: the safety decision is NOT a function of the
ingredient manifest only.  Two candidates identical except for the title
(`"tomato bake"` vs `"cheese bake"`, both with the single ingredient
`"rice"`) receive different verdicts under a dairy intolerance, because the
intolerance scan searches `title + ingredients`; consequently one candidate
is present in the pipeline output and the other is not. -/
theorem safety_title_dependence_cex :
    tomatoBakeRecipe.extendedIngredients = cheeseBakeRecipe.extendedIngredients ∧
    tomatoBakeRecipe.summary = cheeseBakeRecipe.summary ∧
    tomatoBakeRecipe.title ≠ cheeseBakeRecipe.title ∧
    (apply_safety_check dairySettings tomatoBakeRecipe).passed = true ∧
    (apply_safety_check dairySettings cheeseBakeRecipe).passed = false ∧
    (run_pantry_chef dairySettings [tomatoBakeRecipe] []).length = 1 ∧
    run_pantry_chef dairySettings [cheeseBakeRecipe] [] = [] :=
  ⟨rfl, rfl, by decide, by decide, by decide, by decide, by decide⟩

/-- C2 (amended): the DIET-based safety scan is evaluated strictly on the
ingredient manifest, so when no intolerances are requested the whole safety
verdict is independent of title and summary; the intolerance scan, however,
searches the title as well (and the vegetarian pre-filter of
`process_results` scans title and summary), so with intolerances present
two candidates differing only in their title can receive different
verdicts, as the counterexample shows. -/
theorem safety_manifest_only_when_no_intolerances
    (s : Settings) (r1 r2 : Recipe)
    (hno : s.intolerances = [])
    (hing : r1.extendedIngredients = r2.extendedIngredients) :
    apply_safety_check s r1 = apply_safety_check s r2 := by
  have h1 : intoleranceScan s r1 = safeResult := by
    unfold intoleranceScan
    rw [hno]
    rfl
  have h2 : intoleranceScan s r2 = safeResult := by
    unfold intoleranceScan
    rw [hno]
    rfl
  unfold apply_safety_check
  rw [dietScan_congr s hing, h1, h2]

/-- Witness for the amended C2: a vegetarian-diet candidate keeps the same
verdict when only its title and summary change. -/
theorem safety_manifest_only_when_no_intolerances_witness :
    apply_safety_check vegSettings chickenBrothRecipe =
      apply_safety_check vegSettings
        { chickenBrothRecipe with title := "Chicken-Free Delight", summary := "a meaty-sounding summary" } :=
  safety_manifest_only_when_no_intolerances vegSettings chickenBrothRecipe
    { chickenBrothRecipe with title := "Chicken-Free Delight", summary := "a meaty-sounding summary" }
    (by decide) rfl

/-- C3 counterexample: a candidate with ingredients
`["almond milk", "chicken broth"]` under vegetarian + dairy-intolerance
settings.  The dairy keyword `"milk"` hits and the safe word `"almond"`
co-occurs, so by the claim the safety check should return `passed = True`
and `requires_ai_validation = True`; the diet scan runs first, and the
actual verdict is a hard rejection. -/
theorem intolerance_softflag_not_universal_cex :
    (ALLERGY_MAP "dairy").any
      (fun kw => pyIn kw (intoleranceText almondMilkChickenRecipe)) = true ∧
    (SAFE_WORDS "dairy").any
      (fun sw => pyIn sw (intoleranceText almondMilkChickenRecipe)) = true ∧
    vegDairySettings.intolerances = ["dairy"] ∧
    (apply_safety_check vegDairySettings almondMilkChickenRecipe).passed = false ∧
    (apply_safety_check vegDairySettings almondMilkChickenRecipe).requires_ai_validation =
      some false :=
  ⟨by decide, by decide, rfl, by decide, by decide⟩

/-- C3 (amended): provided the diet scan does not reject the candidate and
the intolerance in question is the one whose keyword hit decides the scan
(in particular, the only requested intolerance), a keyword hit with a
co-occurring safe word yields a soft flag — `passed = True`,
`requires_ai_validation = True`, safety score `0.5` — while a hit with no
co-occurring safe word yields a hard rejection (`passed = False`); and in
scenario 3 (`intolerances = ["dairy"]`, ingredients
`["almond milk", "pasta"]`) the candidate remains present in the
orchestrator's final output with the flag propagated in
`_metadata.safety_check`. -/
theorem intolerance_first_hit_softflag_or_cutoff
    (s : Settings) (r : Recipe) (i kw : String)
    (hintol : s.intolerances = [i])
    (hdiet : dietScan s r = none)
    (hfind : (ALLERGY_MAP (pyLower i)).find? (fun k => pyIn k (intoleranceText r)) = some kw) :
    ((SAFE_WORDS (pyLower i)).any (fun sw => pyIn sw (intoleranceText r)) = true →
      apply_safety_check s r = softFlagResult kw ∧
      (apply_safety_check s r).passed = true ∧
      (apply_safety_check s r).requires_ai_validation = some true ∧
      (apply_safety_check s r).safety_score = some (1/2)) ∧
    ((SAFE_WORDS (pyLower i)).any (fun sw => pyIn sw (intoleranceText r)) = false →
      apply_safety_check s r = hardCutoffResult kw ∧
      (apply_safety_check s r).passed = false) ∧
    (∃ c ∈ run_pantry_chef dairySettings [almondMilkPastaRecipe] [],
      c.metadata.safety_check.requires_ai_validation = some true ∧
      c.metadata.safety_check.safety_score = some (1/2) ∧
      c.metadata.safety_check.passed = true) := by
  have hbase : apply_safety_check s r =
      (scanOneIntolerance (intoleranceText r) i).getD safeResult := by
    rw [apply_safety_check_of_dietScan_none hdiet, intoleranceScan_single hintol]
  refine ⟨?_, ?_, by decide⟩
  · intro hsafe
    have h1 : apply_safety_check s r = softFlagResult kw := by
      rw [hbase, scanOneIntolerance_of_find hfind, if_pos hsafe]
      rfl
    exact ⟨h1, by rw [h1]; rfl, by rw [h1]; rfl, by rw [h1]; rfl⟩
  · intro hsafe
    have h1 : apply_safety_check s r = hardCutoffResult kw := by
      rw [hbase, scanOneIntolerance_of_find hfind, if_neg (by simp [hsafe])]
      rfl
    exact ⟨h1, by rw [h1]; rfl⟩

/-- Witness for the amended C3 at scenario 3: the dairy keyword `"milk"`
hits `"almond milk"`, the safe word `"almond"` co-occurs, and the result is
the soft flag. -/
theorem intolerance_first_hit_softflag_or_cutoff_witness :
    apply_safety_check dairySettings almondMilkPastaRecipe = softFlagResult "milk" ∧
    (apply_safety_check dairySettings almondMilkPastaRecipe).passed = true ∧
    (apply_safety_check dairySettings almondMilkPastaRecipe).requires_ai_validation = some true ∧
    (apply_safety_check dairySettings almondMilkPastaRecipe).safety_score = some (1/2) :=
  (intolerance_first_hit_softflag_or_cutoff dairySettings almondMilkPastaRecipe "dairy" "milk"
    rfl (by decide) (by decide)).1 (by decide)

/-- C4 counterexample: under a vegan requirement, the manifest
`["cheese", "almond flour"]` contains the dairy keyword `"cheese"`, whose
own ingredient string contains no safe-alternative word — by the claim the
candidate must be rejected — yet the check passes (`Safe`, score `1.0`),
because the safe word `"almond"` from the OTHER ingredient satisfies the
safe-word test, which is evaluated over the joined manifest text. -/
theorem vegan_cross_ingredient_safe_word_cex :
    DAIRY_EGGS.any (fun kw => pyIn kw (manifestText cheeseAlmondFlourRecipe)) = true ∧
    (SAFE_WORDS "dairy" ++ SAFE_WORDS "eggs").any (fun sw => pyIn sw "cheese") = false ∧
    (apply_safety_check veganSettings cheeseAlmondFlourRecipe).passed = true ∧
    (apply_safety_check veganSettings cheeseAlmondFlourRecipe).safety_score = some 1 :=
  ⟨by decide, by decide, by decide, by decide⟩

/-- C4 (amended): under a vegan requirement (with "vegetarian" not also
set, which would short-circuit the vegan branch) and no land/sea-meat hit,
a dairy/egg keyword hit is rejected (score `0.0`) exactly when NO
recognized safe-alternative keyword occurs anywhere in the joined manifest
text; a safe word occurring in any ingredient — not necessarily the one
containing the dairy/egg keyword — prevents the vegan rejection and the
check proceeds to the intolerance scan. -/
theorem vegan_dairy_safe_word_global
    (s : Settings) (r : Recipe)
    (hvegan : (s.dietary_requirements.map pyLower).contains "vegan" = true)
    (hveg : (s.dietary_requirements.map pyLower).contains "vegetarian" = false)
    (hland : LAND_MEAT.any (fun kw => pyIn kw (manifestText r)) = false)
    (hsea : SEA_MEAT.any (fun kw => pyIn kw (manifestText r)) = false)
    (hdairy : DAIRY_EGGS.any (fun kw => pyIn kw (manifestText r)) = true) :
    (((SAFE_WORDS "dairy" ++ SAFE_WORDS "eggs").any (fun sw => pyIn sw (manifestText r)) = false →
      (apply_safety_check s r).passed = false ∧
      (apply_safety_check s r).safety_score = some 0) ∧
    ((SAFE_WORDS "dairy" ++ SAFE_WORDS "eggs").any (fun sw => pyIn sw (manifestText r)) = true →
      apply_safety_check s r = intoleranceScan s r)) := by
  have hvegan' : ∃ a ∈ s.dietary_requirements, pyLower a = "vegan" := by
    simpa using hvegan
  have hveg' : ¬ ∃ a ∈ s.dietary_requirements, pyLower a = "vegetarian" := by
    simpa using hveg
  constructor
  · intro hnosafe
    have h1 : apply_safety_check s r =
        dietReject "Contains dairy/eggs in ingredients - violates vegan diet"
          "Contains dairy/egg keywords without safe alternatives" := by
      unfold apply_safety_check dietScan
      simp [hvegan', hveg', hland, hsea, hdairy, hnosafe]
    rw [h1]
    exact ⟨rfl, rfl⟩
  · intro hsafe
    have h1 : dietScan s r = none := by
      unfold dietScan
      simp [hvegan', hveg', hland, hsea, hdairy, hsafe]
    exact apply_safety_check_of_dietScan_none h1

/-- Witness for the amended C4: the `["cheese", "almond flour"]` candidate
is not rejected by the vegan rule — the safety check reduces to the
intolerance scan (which, with no intolerances requested, is safe). -/
theorem vegan_dairy_safe_word_global_witness :
    apply_safety_check veganSettings cheeseAlmondFlourRecipe =
      intoleranceScan veganSettings cheeseAlmondFlourRecipe :=
  (vegan_dairy_safe_word_global veganSettings cheeseAlmondFlourRecipe
    (by decide) (by decide) (by decide) (by decide) (by decide)).2 (by decide)

/-- C6: for every candidate, every settings, every smart score and every
filter outcome with a (necessarily) non-negative penalty, the confidence
produced by the reasoning stage lies in `[50, 95]`: the base starts at 75,
accumulates bonuses, is capped at 95, and the penalty reduction is floored
at 50 — no input pushes it outside the interval. -/
theorem reasoning_confidence_within_bounds (s : Settings) (r : Recipe) (smart : ℚ)
    (fr : FilterResult) (hp : 0 ≤ fr.penalty_score) :
    50 ≤ (apply_reasoning_with_penalties s r smart fr).confidence ∧
    (apply_reasoning_with_penalties s r smart fr).confidence ≤ 95 := by
  obtain ⟨hlo, hhi⟩ := apply_reasoning_confidence_bounds s r smart fr
  rw [apply_reasoning_with_penalties_confidence]
  constructor
  · have h1 : ((50:ℤ):ℚ) ≤
        max 50 (((apply_reasoning s r smart fr).confidence : ℚ) - fr.penalty_score) := by
      push_cast
      exact le_max_left _ _
    simpa using pyRound1_lower h1
  · have hb : ((apply_reasoning s r smart fr).confidence : ℚ) ≤ 95 := by exact_mod_cast hhi
    have h1 : max 50 (((apply_reasoning s r smart fr).confidence : ℚ) - fr.penalty_score) ≤
        ((95:ℤ):ℚ) := by
      push_cast
      exact max_le (by norm_num) (by linarith)
    simpa using pyRound1_upper h1

/-- Witness for C6 at scenario 3's candidate with its actual filter outcome. -/
theorem reasoning_confidence_within_bounds_witness :
    50 ≤ (apply_reasoning_with_penalties dairySettings almondMilkPastaRecipe 100
      (apply_soft_filters_with_penalties dairySettings almondMilkPastaRecipe)).confidence ∧
    (apply_reasoning_with_penalties dairySettings almondMilkPastaRecipe 100
      (apply_soft_filters_with_penalties dairySettings almondMilkPastaRecipe)).confidence ≤ 95 :=
  reasoning_confidence_within_bounds dairySettings almondMilkPastaRecipe 100
    (apply_soft_filters_with_penalties dairySettings almondMilkPastaRecipe) (by decide)

/-- C7 counterexample: with the balanced profile, `used = 3` and
`missing = 0`, the score is exactly `100.0` as claimed, but the breakdown
string is `"(0.5×100.0%) + (0.5×100.0%) = 50.0 + 50.0"` — the source's
f-string puts parentheses around each weighted term, so it differs from the
claimed `"0.5×100.0% + 0.5×100.0% = 50.0 + 50.0"`. -/
theorem smart_score_breakdown_format_cex :
    (calculate_smart_score (profileWeights "balanced") 3 0).smart_score = 100 ∧
    (calculate_smart_score (profileWeights "balanced") 3 0).breakdown ≠
      "0.5×100.0% + 0.5×100.0% = 50.0 + 50.0" ∧
    (calculate_smart_score (profileWeights "balanced") 3 0).breakdown =
      "(0.5×100.0%) + (0.5×100.0%) = 50.0 + 50.0" :=
  ⟨by decide, by decide, by decide⟩

/-- C7 (amended): the smart score satisfies its postcondition — zero total
yields score 0 with the explanatory breakdown; otherwise the score is
`wUsed*usedPct + wMissing*(100 - missingPct)` rounded to one decimal; an
unrecognized profile name falls back to the balanced `0.5/0.5` weights; and
with profile "balanced", `used = 3`, `missing = 0`, the score is exactly
`100.0` with breakdown `"(0.5×100.0%) + (0.5×100.0%) = 50.0 + 50.0"` (each
weighted term parenthesized, unlike the claim's quoted string). -/
theorem smart_score_postcondition (used missed : ℕ) (p : String) :
    (used + missed = 0 →
      (calculate_smart_score (profileWeights p) used missed).smart_score = 0 ∧
      (calculate_smart_score (profileWeights p) used missed).breakdown =
        "No ingredient data") ∧
    (used + missed ≠ 0 →
      (calculate_smart_score (profileWeights p) used missed).smart_score =
        pyRound1 ((profileWeights p).1 * (((used : ℚ) / ((used + missed : ℕ) : ℚ)) * 100) +
          (profileWeights p).2 * (100 - ((missed : ℚ) / ((used + missed : ℕ) : ℚ)) * 100))) ∧
    (p ≠ "minimal_shopper" → p ≠ "pantry_cleaner" → p ≠ "balanced" →
      profileWeights p = (1/2, 1/2)) ∧
    (calculate_smart_score (profileWeights "balanced") 3 0).smart_score = 100 ∧
    (calculate_smart_score (profileWeights "balanced") 3 0).breakdown =
      "(0.5×100.0%) + (0.5×100.0%) = 50.0 + 50.0" := by
  refine ⟨?_, ?_, ?_, by decide, by decide⟩
  · intro h
    unfold calculate_smart_score
    rw [if_pos h]
    exact ⟨rfl, rfl⟩
  · intro h
    exact smart_score_eq_of_pos _ _ _ h
  · intro h1 h2 _
    unfold profileWeights
    rw [if_neg h1, if_neg h2]

/-- Witness for the amended C7 at the balanced 3/0 scenario. -/
theorem smart_score_postcondition_witness :
    (calculate_smart_score (profileWeights "balanced") 3 0).smart_score =
      pyRound1 ((profileWeights "balanced").1 * (((3 : ℚ) / ((3 + 0 : ℕ) : ℚ)) * 100) +
        (profileWeights "balanced").2 * (100 - ((0 : ℚ) / ((3 + 0 : ℕ) : ℚ)) * 100)) :=
  (smart_score_postcondition 3 0 "balanced").2.1 (by decide)

/-- C8: for every profile name and every fixed missing count, the smart
score is monotonically non-decreasing in the used count. -/
theorem smart_score_monotone_in_used (p : String) (m u1 u2 : ℕ) (h : u1 ≤ u2) :
    (calculate_smart_score (profileWeights p) u1 m).smart_score ≤
    (calculate_smart_score (profileWeights p) u2 m).smart_score := by
  obtain ⟨hw1, hw2⟩ := profileWeights_nonneg p
  by_cases h1 : u1 + m = 0
  · have hu1 : u1 = 0 := by omega
    have hm : m = 0 := by omega
    subst hu1
    subst hm
    have hz : (calculate_smart_score (profileWeights p) 0 0).smart_score = 0 := by
      unfold calculate_smart_score
      rw [if_pos rfl]
    rw [hz]
    by_cases h2 : u2 = 0
    · subst h2
      rw [hz]
    · have h2' : u2 + 0 ≠ 0 := by omega
      rw [smart_score_eq_of_pos _ _ _ h2']
      have hnn := smart_expr_nonneg (profileWeights p) hw1 hw2 u2 0 h2'
      have := pyRound1_lower (a := 0) (by exact_mod_cast hnn)
      simpa using this
  · have h2 : u2 + m ≠ 0 := by omega
    rw [smart_score_eq_of_pos _ _ _ h1, smart_score_eq_of_pos _ _ _ h2]
    exact pyRound1_mono (smart_expr_mono _ hw1 hw2 m u1 u2 h h1)

/-- Witness for C8: 1 ≤ 3 used ingredients with 2 missing, balanced profile. -/
theorem smart_score_monotone_in_used_witness :
    (calculate_smart_score (profileWeights "balanced") 1 2).smart_score ≤
    (calculate_smart_score (profileWeights "balanced") 3 2).smart_score :=
  smart_score_monotone_in_used "balanced" 2 1 3 (by decide)

/-- C9: result assembly never drops the ingredient manifest or the
nutrition block — every recommendation in the orchestrator's output carries
`extendedIngredients` (and its `raw_ingredients_for_ai` copy) and
`nutrition` content-equal to those of the raw candidate it was built from. -/
theorem assembly_preserves_manifest_and_nutrition
    (s : Settings) (raw : List Recipe) (rejected : List String) (c : CleanRecipe)
    (hc : c ∈ run_pantry_chef s raw rejected) :
    ∃ r ∈ raw, c.extendedIngredients = r.extendedIngredients ∧
      c.raw_ingredients_for_ai = r.extendedIngredients ∧
      c.nutrition = r.nutrition := by
  unfold run_pantry_chef geminiReject safetyEnforce at hc
  rw [List.mem_filter] at hc
  obtain ⟨hc, -⟩ := hc
  rw [List.mem_filter] at hc
  obtain ⟨hc, -⟩ := hc
  unfold process_results at hc
  rw [mem_sortByConfidenceDesc, List.mem_filterMap] at hc
  obtain ⟨r, hr, hpo⟩ := hc
  refine ⟨r, hr, ?_⟩
  unfold processOne at hpo
  split at hpo
  · exact absurd hpo (by simp)
  · split at hpo
    · exact absurd hpo (by simp)
    · have h := Option.some.inj hpo
      rw [← h]
      exact ⟨rfl, rfl, rfl⟩

/-- Witness for C9: the first output recommendation for a concrete run
round-trips the manifest and nutrition of its raw candidate. -/
theorem assembly_preserves_manifest_and_nutrition_witness :
    ∃ r ∈ [tomatoBakeRecipe],
      ((run_pantry_chef dairySettings [tomatoBakeRecipe] []).getD 0
          default).extendedIngredients = r.extendedIngredients ∧
      ((run_pantry_chef dairySettings [tomatoBakeRecipe] []).getD 0
          default).raw_ingredients_for_ai = r.extendedIngredients ∧
      ((run_pantry_chef dairySettings [tomatoBakeRecipe] []).getD 0
          default).nutrition = r.nutrition :=
  assembly_preserves_manifest_and_nutrition dairySettings [tomatoBakeRecipe] []
    ((run_pantry_chef dairySettings [tomatoBakeRecipe] []).getD 0 default) (by decide)

/-- C10: the safe-word qualifier of the intolerance scan is evaluated
globally over the title-plus-ingredients text: whenever any safe word for
the requested intolerance occurs anywhere in that text, every keyword hit
for that intolerance produces the soft flag (`passed = True`, score `0.5`,
`requires_ai_validation = True`) and never a hard rejection; in particular
a candidate listing plain `"cheese"` alongside an unrelated
`"almond flour"` ingredient survives a dairy intolerance as a soft flag and
stays in the pipeline output. -/
theorem intolerance_safe_word_global_softflag
    (r : Recipe) (i : String) (v : SafetyCheck)
    (hsafe : (SAFE_WORDS (pyLower i)).any (fun sw => pyIn sw (intoleranceText r)) = true)
    (hscan : scanOneIntolerance (intoleranceText r) i = some v) :
    (v.passed = true ∧ v.safety_score = some (1/2) ∧
      v.requires_ai_validation = some true) ∧
    (apply_safety_check dairySettings cheeseAlmondFlourRecipe = softFlagResult "cheese" ∧
      (run_pantry_chef dairySettings [cheeseAlmondFlourRecipe] []).length = 1) := by
  refine ⟨?_, by decide, by decide⟩
  unfold scanOneIntolerance at hscan
  cases hfind : (ALLERGY_MAP (pyLower i)).find? (fun k => pyIn k (intoleranceText r)) with
  | none =>
    simp only [hfind] at hscan
    exact absurd hscan (by simp)
  | some kw =>
    simp only [hfind] at hscan
    rw [if_pos hsafe] at hscan
    have h := Option.some.inj hscan
    rw [← h]
    exact ⟨rfl, rfl, rfl⟩

/-- Witness for C10 at the `"cheese"`/`"almond flour"` candidate with a
dairy intolerance. -/
theorem intolerance_safe_word_global_softflag_witness :
    (softFlagResult "cheese").passed = true ∧
    (softFlagResult "cheese").safety_score = some (1/2) ∧
    (softFlagResult "cheese").requires_ai_validation = some true :=
  (intolerance_safe_word_global_softflag cheeseAlmondFlourRecipe "dairy"
    (softFlagResult "cheese") (by decide) (by decide)).1

end PantryChef
